import Mathlib

/-!
Verification of `custom_components/monitor_docker/__init__.py` (monitor_docker
integration entry points) against its specification.

The Python module is shallowly embedded: each coroutine becomes a pure Lean
function over an explicit environment that records at which await point an
exception is raised (and of which kind), and the function returns the sequence
of observable effects (api calls, store writes, raises) together with the
outcome and the updated shared data store.
-/

namespace MonitorDocker

/-- Kind of exception raised at an await point inside `async_setup_entry`:
`ConfigEntryAuthFailed` versus any other `Exception`. -/
inductive ExcKind
  | authFailed
  | otherErr
deriving DecidableEq, Repr

/-- The points inside the `try:` block of `async_setup_entry` at which an
exception can surface: `DockerAPI(hass, entry.data)` construction, `await
api.init()`, `await api.run()`, the `hass.data` store writes, and `await
hass.config_entries.async_forward_entry_setups(entry, PLATFORMS)`. -/
inductive Step
  | createApi
  | initApi
  | runApi
  | storeData
  | forwardPlatforms
deriving DecidableEq, Repr

/-- Observable events of one `async_setup_entry` execution, in program order. -/
inductive Ev
  | createApiEv
  | initEv
  | runEv
  | storeConfigEv
  | storeApiEv
  | forwardEv
  | logErrorEv
  | destroyEv
  | raiseAuthFailedEv
  | raiseNotReadyEv
  | returnTrueEv
deriving DecidableEq, Repr

/-- Final outcome of `async_setup_entry`: normal `return True`, a re-raised
`ConfigEntryAuthFailed`, or a raised `ConfigEntryNotReady`. -/
inductive Outcome
  | ok
  | authFailed
  | notReady
deriving DecidableEq, Repr

/-- The data of one config entry (`entry.data`): the configured host name plus
the rest of the configuration, abstracted as an opaque payload. -/
structure EntryData where
  name : String
  payload : Nat
deriving DecidableEq, Repr

/-- `hass.data[DOMAIN]`: a Python dict keyed by the configured host name,
holding per host the stored config (`entry.data`) and the `DockerAPI`
instance (identified here by a numeric instance id). Being a map, it holds at
most one stored API per name. -/
abbrev HassData := String → Option (EntryData × Nat)

/-- Environment of one `async_setup_entry` run: which await point (if any)
raises, with which exception kind, and the identity of the `DockerAPI`
instance created by this run. -/
structure SetupEnv where
  failAt : Option (Step × ExcKind)
  apiId : Nat
deriving DecidableEq, Repr

/-- Result of `async_setup_entry`: trace of events, outcome, updated
`hass.data[DOMAIN]`. -/
structure SetupResult where
  trace : List Ev
  outcome : Outcome
  data : HassData

/-- Whether the given await point raises in this environment. -/
def failsAt (env : SetupEnv) (s : Step) : Option ExcKind :=
  match env.failAt with
  | some (s', k) => if s' = s then some k else none
  | none => none

/-- The two `except` clauses of `async_setup_entry`:
`except ConfigEntryAuthFailed: raise` re-raises unchanged (the `destroy` call
there is commented out in the source); `except Exception as err:` logs the
error, awaits `api.destroy()` when `api` is not `None`, and raises
`ConfigEntryNotReady`. -/
def handleExc (k : ExcKind) (apiCreated : Bool) (d : HassData) (tr : List Ev) : SetupResult :=
  match k with
  | .authFailed => ⟨tr ++ [Ev.raiseAuthFailedEv], Outcome.authFailed, d⟩
  | .otherErr =>
      if apiCreated then
        ⟨tr ++ [Ev.logErrorEv, Ev.destroyEv, Ev.raiseNotReadyEv], Outcome.notReady, d⟩
      else
        ⟨tr ++ [Ev.logErrorEv, Ev.raiseNotReadyEv], Outcome.notReady, d⟩

/-- Embedding of `async_setup_entry(hass, entry)`: `api = None`; then inside
`try:` it constructs `DockerAPI`, awaits `init()`, awaits `run()`, stores the
config and api in `hass.data[DOMAIN][entry.data[CONF_NAME]]`, and forwards the
platforms; exceptions are routed to the `except` clauses (`handleExc`). -/
def async_setup_entry (env : SetupEnv) (d0 : HassData) (entry : EntryData) : SetupResult :=
  match failsAt env .createApi with
  | some k => handleExc k false d0 []
  | none =>
    match failsAt env .initApi with
    | some k => handleExc k true d0 [Ev.createApiEv]
    | none =>
      match failsAt env .runApi with
      | some k => handleExc k true d0 [Ev.createApiEv, Ev.initEv]
      | none =>
        match failsAt env .storeData with
        | some k => handleExc k true d0 [Ev.createApiEv, Ev.initEv, Ev.runEv]
        | none =>
          let d1 : HassData := fun n => if n = entry.name then some (entry, env.apiId) else d0 n
          match failsAt env .forwardPlatforms with
          | some k =>
              handleExc k true d1
                [Ev.createApiEv, Ev.initEv, Ev.runEv, Ev.storeConfigEv, Ev.storeApiEv]
          | none =>
              ⟨[Ev.createApiEv, Ev.initEv, Ev.runEv, Ev.storeConfigEv, Ev.storeApiEv,
                Ev.forwardEv, Ev.returnTrueEv], Outcome.ok, d1⟩

/-- Observable events of one `async_unload_entry` execution. -/
inductive UnloadEv
  | destroyApi (apiId : Nat)
  | unloadPlatforms
deriving DecidableEq, Repr

/-- Embedding of `async_unload_entry(hass, entry)`: awaits
`hass.data[DOMAIN][entry.data[CONF_NAME]][API].destroy()` and then returns
`await hass.config_entries.async_unload_platforms(entry, PLATFORMS)` (whose
boolean result is the parameter `unloadResult`). A missing key is a Python
`KeyError`, modelled as `none`. -/
def async_unload_entry (d : HassData) (entry : EntryData) (unloadResult : Bool) :
    Option (List UnloadEv × Bool) :=
  match d entry.name with
  | none => none
  | some st => some ([UnloadEv.destroyApi st.2, UnloadEv.unloadPlatforms], unloadResult)

/-- One YAML entry under the integration's domain, as handed to `async_setup`
after schema validation: the configured name, the monitored-conditions list,
and the rest of the options abstracted as an opaque payload. -/
structure YamlEntry where
  name : String
  monitored_conditions : List String
  payload : Nat
deriving DecidableEq, Repr

/-- The monitored-conditions fix-up at the top of the `for` loop of
`async_setup`: when the list is empty it is replaced by a copy of
`MONITORED_CONDITIONS_LIST` with `CONTAINER_INFO_ALLINONE` removed
(`list.remove` drops the first occurrence); afterwards, when the list has
length one and contains `CONTAINER_INFO_ALLINONE`, it is replaced by
`list(MONITORED_CONDITIONS_LIST) + [CONTAINER_INFO_ALLINONE]`.
`MONITORED_CONDITIONS_LIST` and `CONTAINER_INFO_ALLINONE` live in
`const.py` and are passed here as parameters `mcl` and `allinone`. -/
def fixupConditions (mcl : List String) (allinone : String) (conds : List String) : List String :=
  let conds1 := if conds.length = 0 then mcl.erase allinone else conds
  if conds1.length = 1 ∧ allinone ∈ conds1 then mcl ++ [allinone] else conds1

/-- Embedding of `async_setup(hass, config)`: when the domain key is absent it
returns `True` with no import task; otherwise it iterates `config[DOMAIN]`,
fixes up the first entry's monitored conditions, creates one config-flow
importing task for it, and `return True` inside the loop body — so at most
one task is ever created. The result is the list of entries for which an import
task was created, plus the returned boolean. -/
def async_setup (mcl : List String) (allinone : String) (config : Option (List YamlEntry)) :
    List YamlEntry × Bool :=
  match config with
  | none => ([], true)
  | some [] => ([], true)
  | some (e :: _) =>
      ([{ e with monitored_conditions := fixupConditions mcl allinone e.monitored_conditions }],
       true)

/-- A value accepted by `vol.Any(cv.boolean, cv.ensure_list(cv.string))`, the
validator of the switch/button enable options: a boolean or a list of
container names. -/
inductive EnableFlag
  | flag (b : Bool)
  | names (l : List String)
deriving DecidableEq, Repr

/-- The constants imported from `const.py` (not under `src/`), passed as
parameters: the default name, scan interval, retry count, entity name
formats, precision, the monitored-conditions list and the all-in-one
condition. -/
structure ConstData where
  default_name : String
  default_scan_interval : Int
  default_retry : Int
  default_sensorname : String
  default_switchname : String
  default_buttonname : String
  precision : Int
  monitored_conditions_list : List String
  allinone : String
deriving DecidableEq, Repr

/-- Input to `DOCKER_SCHEMA`: each recognized option is `some value` when the
YAML provides it and `none` when omitted; `extraKeys` lists any keys not
declared in the schema (voluptuous rejects them, `extra` not being allowed on
`DOCKER_SCHEMA`). Python-level type validation (`cv.string` etc.) is reflected
by the Lean field types. -/
structure RawDockerConfig where
  name : Option String
  pfx : Option String
  url : Option (Option String)
  scan_interval : Option Int
  monitored_conditions : Option (List String)
  containers : Option (List String)
  containers_exclude : Option (List String)
  rename : Option (List (String × String))
  rename_entity : Option Bool
  sensorname : Option String
  switchenabled : Option EnableFlag
  buttonenabled : Option EnableFlag
  switchname : Option String
  buttonname : Option String
  certpath : Option String
  retry : Option Int
  memorychange : Option Int
  precision_cpu : Option Int
  precision_memory_mb : Option Int
  precision_memory_percentage : Option Int
  precision_network_kb : Option Int
  precision_network_mb : Option Int
  extraKeys : List String
deriving DecidableEq, Repr

/-- A configuration validated by `DOCKER_SCHEMA`, with every option present. -/
structure DockerConfig where
  name : String
  pfx : String
  url : Option String
  scan_interval : Int
  monitored_conditions : List String
  containers : List String
  containers_exclude : List String
  rename : List (String × String)
  rename_entity : Bool
  sensorname : String
  switchenabled : EnableFlag
  buttonenabled : EnableFlag
  switchname : String
  buttonname : String
  certpath : String
  retry : Int
  memorychange : Int
  precision_cpu : Int
  precision_memory_mb : Int
  precision_memory_percentage : Int
  precision_network_kb : Int
  precision_network_mb : Int
deriving DecidableEq, Repr

/-- Home Assistant's `cv.positive_int`, i.e.
`vol.All(vol.Coerce(int), vol.Range(min=0))`: despite the name it accepts any
integer greater than or equal to zero, zero included. -/
def cv_positive_int (n : Int) : Option Int :=
  if 0 ≤ n then some n else none

/-- Embedding of `DOCKER_SCHEMA`: every recognized option is validated (the
numeric options through `cv.positive_int`, the monitored conditions through
`vol.In(MONITORED_CONDITIONS_LIST)`), omitted options are filled with their
schema defaults (defaults are validated too, as voluptuous does), and any
unrecognized key makes validation fail. -/
def DOCKER_SCHEMA (c : ConstData) (raw : RawDockerConfig) : Option DockerConfig :=
  if raw.extraKeys = [] then
    match cv_positive_int (raw.scan_interval.getD c.default_scan_interval),
          cv_positive_int (raw.retry.getD c.default_retry),
          cv_positive_int (raw.memorychange.getD 100),
          cv_positive_int (raw.precision_cpu.getD c.precision),
          cv_positive_int (raw.precision_memory_mb.getD c.precision),
          cv_positive_int (raw.precision_memory_percentage.getD c.precision),
          cv_positive_int (raw.precision_network_kb.getD c.precision),
          cv_positive_int (raw.precision_network_mb.getD c.precision) with
    | some scan, some rty, some mem, some pc, some pmm, some pmp, some pnk, some pnm =>
        if (raw.monitored_conditions.getD []).all
            (fun x => decide (x ∈ c.monitored_conditions_list)) then
          some
            { name := raw.name.getD c.default_name
              pfx := raw.pfx.getD ""
              url := raw.url.getD none
              scan_interval := scan
              monitored_conditions := raw.monitored_conditions.getD []
              containers := raw.containers.getD []
              containers_exclude := raw.containers_exclude.getD []
              rename := raw.rename.getD []
              rename_entity := raw.rename_entity.getD false
              sensorname := raw.sensorname.getD c.default_sensorname
              switchenabled := raw.switchenabled.getD (EnableFlag.flag true)
              buttonenabled := raw.buttonenabled.getD (EnableFlag.flag false)
              switchname := raw.switchname.getD c.default_switchname
              buttonname := raw.buttonname.getD c.default_buttonname
              certpath := raw.certpath.getD ""
              retry := rty
              memorychange := mem
              precision_cpu := pc
              precision_memory_mb := pmm
              precision_memory_percentage := pmp
              precision_network_kb := pnk
              precision_network_mb := pnm }
        else none
    | _, _, _, _, _, _, _, _ => none
  else none

/-- The raw configuration in which every option is omitted. -/
def emptyRawConfig : RawDockerConfig :=
  { name := none, pfx := none, url := none, scan_interval := none,
    monitored_conditions := none, containers := none, containers_exclude := none,
    rename := none, rename_entity := none, sensorname := none, switchenabled := none,
    buttonenabled := none, switchname := none, buttonname := none, certpath := none,
    retry := none, memorychange := none, precision_cpu := none,
    precision_memory_mb := none, precision_memory_percentage := none,
    precision_network_kb := none, precision_network_mb := none, extraKeys := [] }

/-- A concrete instantiation of the `const.py` constants, used for concrete
evaluations. -/
def constsEx : ConstData :=
  { default_name := "Docker", default_scan_interval := 10, default_retry := 60,
    default_sensorname := "sensorfmt", default_switchname := "switchfmt",
    default_buttonname := "buttonfmt", precision := 2,
    monitored_conditions_list := ["version", "containers_running", "allinone"],
    allinone := "allinone" }

/-- The raw configuration that provides `scan_interval: 0` and omits every
other option. -/
def rawZeroScan : RawDockerConfig :=
  { emptyRawConfig with scan_interval := some 0 }

/-- One cumulative CPU counter reading from the daemon's stats endpoint:
total container CPU usage and total system CPU usage. -/
structure CpuSample where
  total_usage : Nat
  system_usage : Nat
deriving DecidableEq, Repr

/-- Modelled from the spec: the Stats Sampler's derived CPU percentage (the
implementing `helpers.py` is not under `src/`). Computes
`(cpu_delta / system_delta) * online_cpus * 100` from the previous cumulative
CPU/system counters; when no previous sample exists (first tick after
start/reconnect) or `system_delta <= 0`, the percentage is unavailable
(`none`) rather than any computed value. -/
def calcCpuPercentage (prev : Option CpuSample) (cur : CpuSample) (onlineCpus : Nat) :
    Option ℚ :=
  match prev with
  | none => none
  | some p =>
      if (cur.system_usage : ℤ) - (p.system_usage : ℤ) ≤ 0 then none
      else
        some ((((cur.total_usage : ℤ) - (p.total_usage : ℤ) : ℤ) : ℚ) /
                (((cur.system_usage : ℤ) - (p.system_usage : ℤ) : ℤ) : ℚ) *
              (onlineCpus : ℚ) * 100)

/-- Modelled from the spec: a sequence of stats fetches for one container.
Each fetch derives the CPU percentage from the previous cumulative sample
(carried as state, initially absent) and the current one. -/
def runCpuSampler (prev : Option CpuSample) (samples : List CpuSample) (onlineCpus : Nat) :
    List (Option ℚ) :=
  match samples with
  | [] => []
  | s :: rest => calcCpuPercentage prev s onlineCpus :: runCpuSampler (some s) rest onlineCpus

/-- C1: for every setup of a host config entry, a `ConfigEntryAuthFailed`
raised at any await point propagates to the caller unchanged, every other
exception is surfaced as `ConfigEntryNotReady`, and the setup returns success
(`True`) exactly when no exception occurred — a failed setup never returns
success. -/
theorem setup_entry_error_taxonomy (env : SetupEnv) (d0 : HassData) (entry : EntryData) :
    (∀ s : Step, env.failAt = some (s, ExcKind.authFailed) →
        (async_setup_entry env d0 entry).outcome = Outcome.authFailed) ∧
    (∀ s : Step, env.failAt = some (s, ExcKind.otherErr) →
        (async_setup_entry env d0 entry).outcome = Outcome.notReady) ∧
    ((async_setup_entry env d0 entry).outcome = Outcome.ok ↔ env.failAt = none) := by
  refine ⟨?_, ?_, ?_⟩
  · rintro s h
    cases s <;> simp [async_setup_entry, failsAt, handleExc, h]
  · rintro s h
    cases s <;> simp [async_setup_entry, failsAt, handleExc, h]
  · rcases henv : env.failAt with _ | ⟨s, k⟩
    · simp [async_setup_entry, failsAt, henv]
    · cases s <;> cases k <;> simp [async_setup_entry, failsAt, handleExc, henv]

/-- Witness for C1: an auth failure at `api.init()` surfaces as an auth
failure. -/
theorem setup_entry_error_taxonomy_witness :
    (async_setup_entry ⟨some (Step.initApi, ExcKind.authFailed), 7⟩ (fun _ => none)
        ⟨"dockerhost", 0⟩).outcome = Outcome.authFailed :=
  (setup_entry_error_taxonomy _ _ _).1 Step.initApi rfl

/-- C2: when setup fails with a non-authentication exception after the
`DockerAPI` object was created, `destroy()` is awaited on it before the
`ConfigEntryNotReady` is raised. -/
theorem setup_entry_other_failure_destroys_api (env : SetupEnv) (d0 : HassData)
    (entry : EntryData) (s : Step) (h : env.failAt = some (s, ExcKind.otherErr))
    (hs : s ≠ Step.createApi) :
    (async_setup_entry env d0 entry).outcome = Outcome.notReady ∧
    Ev.destroyEv ∈ (async_setup_entry env d0 entry).trace ∧
    (async_setup_entry env d0 entry).trace.indexOf Ev.destroyEv <
      (async_setup_entry env d0 entry).trace.indexOf Ev.raiseNotReadyEv := by
  cases s <;>
    first
      | exact absurd rfl hs
      | simp [async_setup_entry, failsAt, handleExc, h]

/-- Witness for C2: a generic failure at `api.run()` leads to `destroy()`
before `ConfigEntryNotReady`. -/
theorem setup_entry_other_failure_destroys_api_witness :
    (async_setup_entry ⟨some (Step.runApi, ExcKind.otherErr), 7⟩ (fun _ => none)
        ⟨"dockerhost", 0⟩).outcome = Outcome.notReady ∧
    Ev.destroyEv ∈ (async_setup_entry ⟨some (Step.runApi, ExcKind.otherErr), 7⟩ (fun _ => none)
        ⟨"dockerhost", 0⟩).trace ∧
    (async_setup_entry ⟨some (Step.runApi, ExcKind.otherErr), 7⟩ (fun _ => none)
        ⟨"dockerhost", 0⟩).trace.indexOf Ev.destroyEv <
      (async_setup_entry ⟨some (Step.runApi, ExcKind.otherErr), 7⟩ (fun _ => none)
        ⟨"dockerhost", 0⟩).trace.indexOf Ev.raiseNotReadyEv :=
  setup_entry_other_failure_destroys_api _ _ _ Step.runApi rfl (by decide)

/-- C3: on a successful setup the trace is exactly create, init, run, store
config, store api, forward platforms, return True — so `init()` completes
before `run()`, and the platforms are forwarded only after both completed and
the API was stored under the host's name. -/
theorem setup_entry_success_ordering (env : SetupEnv) (d0 : HassData) (entry : EntryData)
    (h : env.failAt = none) :
    (async_setup_entry env d0 entry).trace =
      [Ev.createApiEv, Ev.initEv, Ev.runEv, Ev.storeConfigEv, Ev.storeApiEv,
       Ev.forwardEv, Ev.returnTrueEv] ∧
    (async_setup_entry env d0 entry).trace.indexOf Ev.initEv <
      (async_setup_entry env d0 entry).trace.indexOf Ev.runEv ∧
    (async_setup_entry env d0 entry).trace.indexOf Ev.runEv <
      (async_setup_entry env d0 entry).trace.indexOf Ev.forwardEv ∧
    (async_setup_entry env d0 entry).trace.indexOf Ev.storeApiEv <
      (async_setup_entry env d0 entry).trace.indexOf Ev.forwardEv := by
  simp [async_setup_entry, failsAt, h]

/-- Witness for C3: the successful trace on a concrete entry. -/
theorem setup_entry_success_ordering_witness :
    (async_setup_entry ⟨none, 7⟩ (fun _ => none) ⟨"dockerhost", 0⟩).trace =
      [Ev.createApiEv, Ev.initEv, Ev.runEv, Ev.storeConfigEv, Ev.storeApiEv,
       Ev.forwardEv, Ev.returnTrueEv] :=
  (setup_entry_success_ordering _ _ _ rfl).1

/-- C7: when setup fails with `ConfigEntryAuthFailed`, `destroy()` is NOT
called on the partially-initialized API before the exception propagates (the
`destroy` call in that `except` clause is commented out in the source). -/
theorem setup_entry_auth_failure_skips_destroy (env : SetupEnv) (d0 : HassData)
    (entry : EntryData) (s : Step) (h : env.failAt = some (s, ExcKind.authFailed)) :
    (async_setup_entry env d0 entry).outcome = Outcome.authFailed ∧
    Ev.destroyEv ∉ (async_setup_entry env d0 entry).trace := by
  cases s <;> simp [async_setup_entry, failsAt, handleExc, h]

/-- Witness for C7: an auth failure during platform forwarding never calls
`destroy()`. -/
theorem setup_entry_auth_failure_skips_destroy_witness :
    Ev.destroyEv ∉ (async_setup_entry ⟨some (Step.forwardPlatforms, ExcKind.authFailed), 7⟩
        (fun _ => none) ⟨"dockerhost", 0⟩).trace :=
  (setup_entry_auth_failure_skips_destroy _ _ _ Step.forwardPlatforms rfl).2

/-- C9: a successful setup stores exactly the API instance and config it
created under the entry's configured name, leaving every other name untouched;
since `hass.data[DOMAIN]` is a map keyed by name, it holds at most one API
instance per configured name. -/
theorem setup_entry_stores_api_by_name (env : SetupEnv) (d0 : HassData) (entry : EntryData)
    (h : env.failAt = none) :
    (async_setup_entry env d0 entry).data entry.name = some (entry, env.apiId) ∧
    ∀ n : String, n ≠ entry.name → (async_setup_entry env d0 entry).data n = d0 n := by
  constructor
  · simp [async_setup_entry, failsAt, h]
  · intro n hn
    simp [async_setup_entry, failsAt, h, hn]

/-- Witness for C9: a concrete successful setup stores the created api id
under the host's name. -/
theorem setup_entry_stores_api_by_name_witness :
    (async_setup_entry ⟨none, 7⟩ (fun _ => none) ⟨"dockerhost", 0⟩).data "dockerhost" =
      some (⟨"dockerhost", 0⟩, 7) :=
  (setup_entry_stores_api_by_name _ _ _ rfl).1

/-- C5: unloading a host config entry awaits `destroy()` on that host's stored
API before the platforms are unloaded, and returns the result of the platform
unload. -/
theorem unload_entry_destroys_then_unloads (d : HassData) (entry : EntryData)
    (unloadResult : Bool) (cfg : EntryData) (apiId : Nat)
    (h : d entry.name = some (cfg, apiId)) :
    async_unload_entry d entry unloadResult =
      some ([UnloadEv.destroyApi apiId, UnloadEv.unloadPlatforms], unloadResult) := by
  simp [async_unload_entry, h]

/-- Witness for C5: unloading a concrete stored host destroys its stored api
(id 42) and returns the platform-unload result. -/
theorem unload_entry_destroys_then_unloads_witness :
    async_unload_entry (fun n => if n = "dockerhost" then some (⟨"dockerhost", 3⟩, 42) else none)
        ⟨"dockerhost", 3⟩ true =
      some ([UnloadEv.destroyApi 42, UnloadEv.unloadPlatforms], true) :=
  unload_entry_destroys_then_unloads _ _ _ ⟨"dockerhost", 3⟩ 42 (by simp)

/-- C4: for a YAML configuration whose domain list has one or more entries,
`async_setup` creates exactly one config-flow import task — for the first
entry, with its monitored conditions fixed up — and returns `True`; the result
does not depend on the remaining entries, which are never imported. -/
theorem async_setup_imports_first_entry_only (mcl : List String) (allinone : String)
    (e : YamlEntry) (rest : List YamlEntry) :
    async_setup mcl allinone (some (e :: rest)) =
      ([{ e with monitored_conditions := fixupConditions mcl allinone e.monitored_conditions }],
       true) :=
  rfl

/-- C8: with `CONTAINER_INFO_ALLINONE` occurring exactly once in
`MONITORED_CONDITIONS_LIST`, an empty monitored-conditions list becomes
`MONITORED_CONDITIONS_LIST` minus the all-in-one condition, and the singleton
all-in-one list becomes `MONITORED_CONDITIONS_LIST` with one more all-in-one
appended — so the all-in-one condition then occurs twice. -/
theorem fixup_monitored_conditions (mcl : List String) (allinone : String)
    (hcount : mcl.count allinone = 1) :
    fixupConditions mcl allinone [] = mcl.erase allinone ∧
    fixupConditions mcl allinone [allinone] = mcl ++ [allinone] ∧
    (fixupConditions mcl allinone [allinone]).count allinone = 2 := by
  have hzero : (mcl.erase allinone).count allinone = 0 := by
    rw [List.count_erase_self, hcount]
  have hnotmem : allinone ∉ mcl.erase allinone := List.count_eq_zero.mp hzero
  refine ⟨?_, ?_, ?_⟩
  · simp [fixupConditions, hnotmem]
  · simp [fixupConditions]
  · simp [fixupConditions, List.count_append, hcount]

/-- Witness for C8: on a concrete three-element conditions list, the
singleton all-in-one input yields the appended list with the all-in-one
condition twice. -/
theorem fixup_monitored_conditions_witness :
    (fixupConditions ["version", "containers_running", "allinone"] "allinone"
        ["allinone"]).count "allinone" = 2 :=
  (fixup_monitored_conditions ["version", "containers_running", "allinone"] "allinone"
      (by decide)).2.2

/-- Inversion for Home Assistant's `cv.positive_int`: accepted values are
returned unchanged and are non-negative. -/
theorem cv_positive_int_some {x y : Int} (h : cv_positive_int x = some y) :
    y = x ∧ 0 ≤ x := by
  unfold cv_positive_int at h
  split at h
  · exact ⟨(Option.some.inj h).symm, by assumption⟩
  · exact absurd h (by simp)

/-- C6 (amended): `DOCKER_SCHEMA` rejects unrecognized keys; every accepted
configuration has each omitted recognized option filled with its schema
default (scan interval `DEFAULT_SCAN_INTERVAL`, retry `DEFAULT_RETRY`, switch
enabled `True`, button enabled `False`, empty prefix and certificate path,
memory change 100, precisions `PRECISION`), its monitored conditions all drawn
from `MONITORED_CONDITIONS_LIST`, and its scan interval, retry, memory change
and precisions non-negative; a negative value for any of those numeric options
is rejected. (Zero is accepted: `cv.positive_int` is
`vol.All(vol.Coerce(int), vol.Range(min=0))`.) -/
theorem docker_schema_validation (c : ConstData) (raw : RawDockerConfig) :
    (raw.extraKeys ≠ [] → DOCKER_SCHEMA c raw = none) ∧
    (∀ cfg : DockerConfig, DOCKER_SCHEMA c raw = some cfg →
      raw.extraKeys = [] ∧
      cfg = { name := raw.name.getD c.default_name
              pfx := raw.pfx.getD ""
              url := raw.url.getD none
              scan_interval := raw.scan_interval.getD c.default_scan_interval
              monitored_conditions := raw.monitored_conditions.getD []
              containers := raw.containers.getD []
              containers_exclude := raw.containers_exclude.getD []
              rename := raw.rename.getD []
              rename_entity := raw.rename_entity.getD false
              sensorname := raw.sensorname.getD c.default_sensorname
              switchenabled := raw.switchenabled.getD (EnableFlag.flag true)
              buttonenabled := raw.buttonenabled.getD (EnableFlag.flag false)
              switchname := raw.switchname.getD c.default_switchname
              buttonname := raw.buttonname.getD c.default_buttonname
              certpath := raw.certpath.getD ""
              retry := raw.retry.getD c.default_retry
              memorychange := raw.memorychange.getD 100
              precision_cpu := raw.precision_cpu.getD c.precision
              precision_memory_mb := raw.precision_memory_mb.getD c.precision
              precision_memory_percentage := raw.precision_memory_percentage.getD c.precision
              precision_network_kb := raw.precision_network_kb.getD c.precision
              precision_network_mb := raw.precision_network_mb.getD c.precision } ∧
      0 ≤ raw.scan_interval.getD c.default_scan_interval ∧
      0 ≤ raw.retry.getD c.default_retry ∧
      0 ≤ raw.memorychange.getD 100 ∧
      0 ≤ raw.precision_cpu.getD c.precision ∧
      0 ≤ raw.precision_memory_mb.getD c.precision ∧
      0 ≤ raw.precision_memory_percentage.getD c.precision ∧
      0 ≤ raw.precision_network_kb.getD c.precision ∧
      0 ≤ raw.precision_network_mb.getD c.precision ∧
      ∀ x ∈ raw.monitored_conditions.getD [], x ∈ c.monitored_conditions_list) ∧
    (∀ n : Int, n < 0 →
      (raw.scan_interval = some n ∨ raw.retry = some n ∨ raw.memorychange = some n ∨
        raw.precision_cpu = some n ∨ raw.precision_memory_mb = some n ∨
        raw.precision_memory_percentage = some n ∨ raw.precision_network_kb = some n ∨
        raw.precision_network_mb = some n) →
      DOCKER_SCHEMA c raw = none) := by
  have hB : ∀ cfg : DockerConfig, DOCKER_SCHEMA c raw = some cfg →
      raw.extraKeys = [] ∧
      cfg = { name := raw.name.getD c.default_name
              pfx := raw.pfx.getD ""
              url := raw.url.getD none
              scan_interval := raw.scan_interval.getD c.default_scan_interval
              monitored_conditions := raw.monitored_conditions.getD []
              containers := raw.containers.getD []
              containers_exclude := raw.containers_exclude.getD []
              rename := raw.rename.getD []
              rename_entity := raw.rename_entity.getD false
              sensorname := raw.sensorname.getD c.default_sensorname
              switchenabled := raw.switchenabled.getD (EnableFlag.flag true)
              buttonenabled := raw.buttonenabled.getD (EnableFlag.flag false)
              switchname := raw.switchname.getD c.default_switchname
              buttonname := raw.buttonname.getD c.default_buttonname
              certpath := raw.certpath.getD ""
              retry := raw.retry.getD c.default_retry
              memorychange := raw.memorychange.getD 100
              precision_cpu := raw.precision_cpu.getD c.precision
              precision_memory_mb := raw.precision_memory_mb.getD c.precision
              precision_memory_percentage := raw.precision_memory_percentage.getD c.precision
              precision_network_kb := raw.precision_network_kb.getD c.precision
              precision_network_mb := raw.precision_network_mb.getD c.precision } ∧
      0 ≤ raw.scan_interval.getD c.default_scan_interval ∧
      0 ≤ raw.retry.getD c.default_retry ∧
      0 ≤ raw.memorychange.getD 100 ∧
      0 ≤ raw.precision_cpu.getD c.precision ∧
      0 ≤ raw.precision_memory_mb.getD c.precision ∧
      0 ≤ raw.precision_memory_percentage.getD c.precision ∧
      0 ≤ raw.precision_network_kb.getD c.precision ∧
      0 ≤ raw.precision_network_mb.getD c.precision ∧
      ∀ x ∈ raw.monitored_conditions.getD [], x ∈ c.monitored_conditions_list := by
    intro cfg hcfg
    unfold DOCKER_SCHEMA at hcfg
    by_cases hek : raw.extraKeys = []
    · rw [if_pos hek] at hcfg
      split at hcfg
      all_goals try exact Option.noConfusion hcfg
      rename_i scan rty mem pc pmm pmp pnk pnm h1 h2 h3 h4 h5 h6 h7 h8
      split at hcfg
      · rename_i hall
        obtain ⟨e1, n1⟩ := cv_positive_int_some h1
        obtain ⟨e2, n2⟩ := cv_positive_int_some h2
        obtain ⟨e3, n3⟩ := cv_positive_int_some h3
        obtain ⟨e4, n4⟩ := cv_positive_int_some h4
        obtain ⟨e5, n5⟩ := cv_positive_int_some h5
        obtain ⟨e6, n6⟩ := cv_positive_int_some h6
        obtain ⟨e7, n7⟩ := cv_positive_int_some h7
        obtain ⟨e8, n8⟩ := cv_positive_int_some h8
        subst e1 e2 e3 e4 e5 e6 e7 e8
        injection hcfg with hcfg
        refine ⟨hek, hcfg.symm, n1, n2, n3, n4, n5, n6, n7, n8, ?_⟩
        intro x hx
        exact of_decide_eq_true (List.all_eq_true.mp hall x hx)
      · exact Option.noConfusion hcfg
    · rw [if_neg hek] at hcfg
      exact Option.noConfusion hcfg
  refine ⟨?_, hB, ?_⟩
  · intro hne
    unfold DOCKER_SCHEMA
    rw [if_neg hne]
  · intro n hn hdisj
    cases hd : DOCKER_SCHEMA c raw with
    | none => rfl
    | some cfg =>
        obtain ⟨-, -, hs, hr, hm, hp1, hp2, hp3, hp4, hp5, -⟩ := hB cfg hd
        rcases hdisj with h | h | h | h | h | h | h | h
        · rw [h, Option.getD_some] at hs; omega
        · rw [h, Option.getD_some] at hr; omega
        · rw [h, Option.getD_some] at hm; omega
        · rw [h, Option.getD_some] at hp1; omega
        · rw [h, Option.getD_some] at hp2; omega
        · rw [h, Option.getD_some] at hp3; omega
        · rw [h, Option.getD_some] at hp4; omega
        · rw [h, Option.getD_some] at hp5; omega

/-- Witness for C6: the schema rejects a configuration carrying an
unrecognized key. -/
theorem docker_schema_validation_witness :
    DOCKER_SCHEMA constsEx { emptyRawConfig with extraKeys := ["bogus"] } = none :=
  (docker_schema_validation constsEx _).1 (by simp)

/-- Counterexample for C6 as stated: the schema accepts `scan_interval: 0`,
although 0 is not a positive integer — `cv.positive_int` only requires the
value to be at least 0. -/
theorem docker_schema_accepts_zero_scan :
    DOCKER_SCHEMA constsEx rawZeroScan =
      some { name := "Docker", pfx := "", url := none, scan_interval := 0,
             monitored_conditions := [], containers := [], containers_exclude := [],
             rename := [], rename_entity := false, sensorname := "sensorfmt",
             switchenabled := EnableFlag.flag true, buttonenabled := EnableFlag.flag false,
             switchname := "switchfmt", buttonname := "buttonfmt", certpath := "",
             retry := 60, memorychange := 100, precision_cpu := 2,
             precision_memory_mb := 2, precision_memory_percentage := 2,
             precision_network_kb := 2, precision_network_mb := 2 } := by
  rfl

/-- A single derived CPU sample is non-negative whenever the cumulative CPU
counter did not decrease. -/
theorem calcCpu_nonneg (p cur : CpuSample) (cpus : Nat)
    (h : p.total_usage ≤ cur.total_usage) :
    ∀ v : ℚ, calcCpuPercentage (some p) cur cpus = some v → 0 ≤ v := by
  intro v hv
  simp only [calcCpuPercentage] at hv
  split at hv
  · exact Option.noConfusion hv
  · rename_i hsys
    injection hv with hv
    subst hv
    have h1 : (0 : ℚ) ≤ (((cur.total_usage : ℤ) - (p.total_usage : ℤ) : ℤ) : ℚ) := by
      have hz : (0 : ℤ) ≤ (cur.total_usage : ℤ) - (p.total_usage : ℤ) := by omega
      exact_mod_cast hz
    have h2 : (0 : ℚ) ≤ (((cur.system_usage : ℤ) - (p.system_usage : ℤ) : ℤ) : ℚ) := by
      have hz : (0 : ℤ) ≤ (cur.system_usage : ℤ) - (p.system_usage : ℤ) := by omega
      exact_mod_cast hz
    have h3 : (0 : ℚ) ≤ (cpus : ℚ) := by positivity
    have h100 : (0 : ℚ) ≤ 100 := by norm_num
    exact mul_nonneg (mul_nonneg (div_nonneg h1 h2) h3) h100

/-- Every derived CPU percentage produced along a run of the sampler is
non-negative, provided the cumulative CPU counters are monotone and any
carried-in previous sample precedes the first fetched one. -/
theorem runCpuSampler_sound (cpus : Nat) :
    ∀ (samples : List CpuSample) (prev : Option CpuSample),
      samples.Chain' (fun a b => a.total_usage ≤ b.total_usage) →
      (∀ p : CpuSample, prev = some p → ∀ s : CpuSample, samples.head? = some s →
          p.total_usage ≤ s.total_usage) →
      ∀ o ∈ runCpuSampler prev samples cpus, ∀ v : ℚ, o = some v → 0 ≤ v := by
  intro samples
  induction samples with
  | nil =>
      intro prev _ _ o ho
      simp [runCpuSampler] at ho
  | cons s rest ih =>
      intro prev hchain hprev o ho v hov
      rw [runCpuSampler] at ho
      rcases List.mem_cons.mp ho with hh | hh
      · subst hh
        cases prev with
        | none => exact Option.noConfusion hov
        | some p =>
            exact calcCpu_nonneg p s cpus (hprev p rfl s rfl) v hov
      · obtain ⟨hhd, hchain'⟩ := List.chain'_cons'.mp hchain
        refine ih (some s) hchain' ?_ o hh v hov
        intro p hp s' hs'
        cases hp
        exact hhd s' (Option.mem_def.mpr hs')

/-- C10: along every sequence of stats fetches, the derived CPU percentage is
never negative (given monotone cumulative CPU counters); the first tick after
start/reconnect — no previous sample — reports unavailable (`none`), and so
does any tick with `system_delta <= 0`. -/
theorem cpu_percentage_nonneg_and_pending (samples : List CpuSample) (cpus : Nat)
    (hmono : samples.Chain' (fun a b => a.total_usage ≤ b.total_usage)) :
    (samples ≠ [] → (runCpuSampler none samples cpus).head? = some none) ∧
    (∀ o ∈ runCpuSampler none samples cpus, ∀ v : ℚ, o = some v → 0 ≤ v) ∧
    (∀ p cur : CpuSample, (cur.system_usage : ℤ) - (p.system_usage : ℤ) ≤ 0 →
        calcCpuPercentage (some p) cur cpus = none) ∧
    (∀ cur : CpuSample, calcCpuPercentage none cur cpus = none) := by
  refine ⟨?_, ?_, ?_, ?_⟩
  · intro hne
    cases samples with
    | nil => exact absurd rfl hne
    | cons s rest => simp [runCpuSampler, calcCpuPercentage]
  · refine runCpuSampler_sound cpus samples none hmono ?_
    intro p hp
    exact Option.noConfusion hp
  · intro p cur hsys
    simp [calcCpuPercentage, hsys]
  · intro cur
    rfl

/-- Witness for C10: on the spec's scenario — counters (100, 1000) then
(150, 1200) with 2 online CPUs — the first tick is unavailable (the second
computes (50 / 200) * 2 * 100 = 50). -/
theorem cpu_percentage_nonneg_and_pending_witness :
    (runCpuSampler none [⟨100, 1000⟩, ⟨150, 1200⟩] 2).head? = some none :=
  (cpu_percentage_nonneg_and_pending [⟨100, 1000⟩, ⟨150, 1200⟩] 2
      (by norm_num [List.chain'_pair])).1 (by decide)

end MonitorDocker
